import Mathlib

/-!
Verification of the CSV ETVL pipeline
(`src/datafun_03_analytics/jugurtha_csv_pipeline.py`).

Shallow embedding conventions:
* Python floats are modelled as exact rationals `ℚ`.  The amounts appearing
  in this pipeline are decimal literals, `statistics.mean` computes the exact
  rational mean (via `Fraction`) before a single final rounding, and none of
  the claims below depend on double-precision rounding error, so `ℚ` is the
  faithful abstraction.
* The filesystem is a map `String → Option (List (List String))` sending a
  path to the lexed rows of the CSV file stored there (`none` = no file).
  `Path.exists()` is `≠ none`; `csv.reader` lexing itself is outside scope,
  the embedding starts from the row lists it yields.
* Python `dict` is an insertion-ordered association list with unique keys.
* Raised exceptions become `Except PyError`; the three exception types the
  source can raise are the constructors of `PyError`.
-/

namespace CsvPipeline

/-- Exceptions the pipeline can raise.  `keyError` is raised at two sites in
the source: the header-column check and the `state_totals[state]` dict
lookup. -/
inductive PyError where
  | fileNotFoundError (msg : String)
  | keyError (msg : String)
  | valueError (msg : String)
deriving DecidableEq, Repr

/-- A single quote character, used in Python error-message formatting. -/
def sq : String := "\x27"

/-- Python repr of an optional list of strings, as interpolated into the
missing-column error message (`None` or `['A', 'B']`). -/
def pyReprFieldnames : Option (List String) → String
  | none => "None"
  | some [] => "[]"
  | some (x :: xs) =>
      "[" ++ String.intercalate ", " ((x :: xs).map (fun s => sq ++ s ++ sq)) ++ "]"

/-- The message of the `KeyError` raised by the header-column check. -/
def missingColumnMsg (amount_col state_col : String) (fieldnames : Option (List String)) :
    String :=
  "CSV missing expected column " ++ sq ++ amount_col ++ sq ++ " or " ++ sq ++ state_col
    ++ sq ++ ". Found: " ++ pyReprFieldnames fieldnames

/-- Python `a and b` on strings: returns `a` when `a` is falsy (empty),
otherwise `b`.  The source's column check applies `not in` to this value. -/
def pyAnd (a b : String) : String := if a = "" then a else b

/-- Numeric value of a list of ASCII digits, most significant first. -/
def digitsToNat (ds : List Char) : ℕ :=
  ds.foldl (fun a c => 10 * a + (c.toNat - 48)) 0

/-- Optional leading sign; returns (isNegative, rest). -/
def parseSign : List Char → (Bool × List Char)
  | '+' :: cs => (false, cs)
  | '-' :: cs => (true, cs)
  | cs => (false, cs)

/-- Mantissa of a float literal: `digits [. digits*]` or `. digits+`. -/
def parseMantissa (cs : List Char) : Option (ℚ × List Char) :=
  let p := cs.span Char.isDigit
  match p.2 with
  | '.' :: rest2 =>
      let q := rest2.span Char.isDigit
      if p.1 = [] ∧ q.1 = [] then none
      else some ((digitsToNat p.1 : ℚ) + (digitsToNat q.1 : ℚ) / (10 ^ q.1.length), q.2)
  | _ => if p.1 = [] then none else some ((digitsToNat p.1 : ℚ), p.2)

/-- Optional exponent part `(e|E) sign? digits+`; absent exponent is `0`. -/
def parseExponent (cs : List Char) : Option (ℤ × List Char) :=
  match cs with
  | 'e' :: rest | 'E' :: rest =>
      let sr := parseSign rest
      let q := sr.2.span Char.isDigit
      if q.1 = [] then none
      else some ((if sr.1 then -(digitsToNat q.1 : ℤ) else (digitsToNat q.1 : ℤ)), q.2)
  | _ => some (0, cs)

/-- Models Python `float(s)` on (already whitespace-stripped) finite decimal
literals: optional sign, decimal mantissa, optional decimal exponent.
Inputs Python would also accept but that denote no rational (`inf`, `nan`)
or use underscores are out of scope; none of the claims depends on them. -/
def pyFloat? (s : String) : Option ℚ :=
  let sc := parseSign s.data
  match parseMantissa sc.2 with
  | none => none
  | some (m, cs2) =>
      match parseExponent cs2 with
      | none => none
      | some (e, cs3) =>
          if cs3 = [] then some ((if sc.1 then -m else m) * (10 : ℚ) ^ e) else none

/-- Models Python `s.strip()`: drop leading and trailing whitespace
characters (ASCII whitespace; the exotic Unicode spaces Python also strips
do not occur in this pipeline's data). -/
def pyStrip (s : String) : String :=
  String.mk (((s.data.dropWhile Char.isWhitespace).reverse.dropWhile
    Char.isWhitespace).reverse)

/-- Pairs `csv.DictReader` builds for one row: `dict(zip(fieldnames, row))`,
with fieldnames beyond the row's length bound to `restval = None`. -/
def rowZip : List String → List String → List (String × Option String)
  | [], _ => []
  | f :: fs, [] => (f, none) :: rowZip fs []
  | f :: fs, v :: vs => (f, some v) :: rowZip fs vs

/-- Lookup in the zipped row with Python dict semantics: a later duplicate
field name overwrites an earlier one. -/
def lookupLast (k : String) : List (String × Option String) → Option (Option String)
  | [] => none
  | (f, v) :: rest =>
      match lookupLast k rest with
      | some r => some r
      | none => if f = k then some v else none

/-- Models `row.get(col)`: `none` both when the column is absent and when the
stored value is `None` (short row). -/
def rowGet (fieldnames row : List String) (col : String) : Option String :=
  match lookupLast col (rowZip fieldnames row) with
  | some v => v
  | none => none

/-- Python `dict` lookup `d[k]` in an association list (keys unique). -/
def dictLookup (k : String) : List (String × ℚ) → Option ℚ
  | [] => none
  | (a, v) :: rest => if a = k then some v else dictLookup k rest

/-- Python `dict` assignment `d[k] = v`: updates in place, appends when new. -/
def dictSet (k : String) (v : ℚ) : List (String × ℚ) → List (String × ℚ)
  | [] => [(k, v)]
  | (a, w) :: rest => if a = k then (a, v) :: rest else (a, w) :: dictSet k v rest

/-- The row loop of `extract_csv_orders`.  Faithful to the source, including
the slip at `state_totals[state] = state_totals[state] + amount`, whose
right-hand-side lookup raises `KeyError` whenever `state` is a new key. -/
def processRows (fieldnames : List String) (amount_col state_col : String) :
    List (List String) → List ℚ → List (String × ℚ) →
      Except PyError (List ℚ × List (String × ℚ))
  | [], amounts, state_totals => .ok (amounts, state_totals)
  | row :: rest, amounts, state_totals =>
      if row = [] then
        -- DictReader skips rows lexed as the empty list (blank lines)
        processRows fieldnames amount_col state_col rest amounts state_totals
      else
        let raw_amount := pyStrip ((rowGet fieldnames row amount_col).getD "")
        let state := pyStrip ((rowGet fieldnames row state_col).getD "")
        if raw_amount = "" || state = "" then
          processRows fieldnames amount_col state_col rest amounts state_totals
        else
          match pyFloat? raw_amount with
          | none =>
              -- float(raw_amount) raised ValueError: skip the row
              processRows fieldnames amount_col state_col rest amounts state_totals
          | some amount =>
              match dictLookup state state_totals with
              | none => .error (.keyError (sq ++ state ++ sq))
              | some v =>
                  processRows fieldnames amount_col state_col rest
                    (amounts ++ [amount]) (dictSet state (v + amount) state_totals)

/-- Models `extract_csv_orders`.  `fs` is the filesystem; the file at
`file_path` is its list of lexed rows, header first.  An empty file gives
`reader.fieldnames = None`.  The column check is the source's
`(amount_col and state_col) not in reader.fieldnames`. -/
def extract_csv_orders (fs : String → Option (List (List String)))
    (file_path amount_col state_col : String) :
    Except PyError (List ℚ × List (String × ℚ)) :=
  match fs file_path with
  | none => .error (.fileNotFoundError ("Missing input file: " ++ file_path))
  | some contents =>
      match contents with
      | [] => .error (.keyError (missingColumnMsg amount_col state_col none))
      | header :: body =>
          if (header.contains (pyAnd amount_col state_col)) = false then
            .error (.keyError (missingColumnMsg amount_col state_col (some header)))
          else
            processRows header amount_col state_col body [] []

/-- Result record of `transform_orders_to_stats` (keys of the returned
Python dict; `count` is a float in the source, hence `ℚ` here). -/
structure Stats where
  count : ℚ
  min : ℚ
  max : ℚ
  mean : ℚ
deriving DecidableEq, Repr

/-- Python `min(amounts)` (first argument head, fold over the tail).  The
`[]` case raises in Python; the caller guards it, the `0` here is junk. -/
def pyMinL : List ℚ → ℚ
  | [] => 0
  | x :: xs => xs.foldl min x

/-- Python `max(amounts)`; same conventions as `pyMinL`. -/
def pyMaxL : List ℚ → ℚ
  | [] => 0
  | x :: xs => xs.foldl max x

/-- Models `transform_orders_to_stats`.  `statistics.mean` computes the exact
rational mean before converting to float, i.e. sum divided by length. -/
def transform_orders_to_stats (amounts : List ℚ) : Except PyError Stats :=
  if amounts.isEmpty then
    .error (.valueError "No numeric values found for analysis.")
  else
    .ok { count := (amounts.length : ℚ)
          min := pyMinL amounts
          max := pyMaxL amounts
          mean := amounts.sum / (amounts.length : ℚ) }

/-- Round a rational to the nearest integer, ties to even — the rounding of
Python float formatting. -/
def roundHalfEven (q : ℚ) : ℤ :=
  let f := q.floor
  let r := q - (f : ℚ)
  if r < 1 / 2 then f
  else if 1 / 2 < r then f + 1
  else if f % 2 = 0 then f else f + 1

/-- Two-digit zero-padded decimal rendering of a natural number below 100. -/
def twoDigits (n : ℕ) : String :=
  if n < 10 then "0" ++ toString n else toString n

/-- Models Python `f"{x:.2f}"` on the exact value: round to 2 decimal places,
half to even.  The double-precision representation error of the input float
is not modelled; the pipeline values in the claims are exactly
representable at this precision. -/
def fmt2 (q : ℚ) : String :=
  let n := (roundHalfEven (q * 100)).natAbs
  (if q < 0 then "-" else "") ++ toString (n / 100) ++ "." ++ twoDigits (n % 100)

/-- Python `int(x)` on a float: truncation toward zero. -/
def pyInt (q : ℚ) : ℤ :=
  if q < 0 then q.ceil else q.floor

/-- Python tuple comparison `(s, x) <= (t, y)` used by `sorted` on
`state_totals.items()`: lexicographic, strings by code point. -/
def pairLe (a b : String × ℚ) : Prop :=
  a.1 < b.1 ∨ (a.1 = b.1 ∧ a.2 ≤ b.2)

instance (a b : String × ℚ) : Decidable (pairLe a b) := by
  unfold pairLe; infer_instance

/-- The 30-dash separator line `"-" * 30`. -/
def dashSep : String := String.mk (List.replicate 30 '-')

/-- One per-state line of the report body. -/
def stateLine (p : String × ℚ) : String := p.1 ++ ": $" ++ fmt2 p.2 ++ "\n"

/-- Models `load_stats_report` as the exact text written to the output file.
Python `sorted` is a stable comparison sort; `List.insertionSort` with the
same ordering relation computes the same (stable, ascending) result. -/
def load_stats_report (stats : Stats) (state_totals : List (String × ℚ)) : String :=
  "Customer Orders Statistics\n" ++ dashSep ++ "\n"
    ++ "Count: " ++ toString (pyInt stats.count) ++ "\n"
    ++ "Minimum: " ++ fmt2 stats.min ++ "\n"
    ++ "Maximum: " ++ fmt2 stats.max ++ "\n"
    ++ "Mean: " ++ fmt2 stats.mean ++ "\n"
    ++ "Total Order Amount by State\n" ++ dashSep ++ "\n"
    ++ String.join ((List.insertionSort pairLe state_totals).map stateLine)

/-- Models `run_csv_pipeline`.  Success carries the output path and the exact
report text written there; an exception in any stage propagates and nothing
is written.  The logger is advisory only and not modelled. -/
def run_csv_pipeline (fs : String → Option (List (List String)))
    (raw_dir processed_dir : String) : Except PyError (String × String) :=
  let input_file := raw_dir ++ "/customers_orders.csv"
  let output_file := processed_dir ++ "/csv_customers_orders_stats.txt"
  match extract_csv_orders fs input_file "AmountSpentUSD" "State" with
  | .error e => .error e
  | .ok (amounts, state_totals) =>
      match transform_orders_to_stats amounts with
      | .error e => .error e
      | .ok stats => .ok (output_file, load_stats_report stats state_totals)

/-- Files written by a pipeline run: the report on success, nothing on an
exception. -/
def writtenFiles : Except PyError (String × String) → List (String × String)
  | .ok (p, c) => [(p, c)]
  | .error _ => []

/-! Claim theorems. -/

/-- Claim C1 (code_bug evidence): on a well-formed CSV whose first data row
is valid (amount `100.00`, state `CA`), `extract_csv_orders` does not add the
amount under a zero-initialized new key and return normally; it raises
`KeyError` at `state_totals[state]`, because the right-hand-side lookup of
`state_totals[state] = state_totals[state] + amount` is evaluated on a key
that is not yet present. -/
theorem C1_extract_raises_keyError_on_first_valid_row :
    extract_csv_orders
      (fun p => if p = "data/raw/customers_orders.csv" then
          some [["AmountSpentUSD", "State"], ["100.00", "CA"]] else none)
      "data/raw/customers_orders.csv" "AmountSpentUSD" "State"
      = .error (.keyError (sq ++ "CA" ++ sq)) := by
  rfl

/-- Claim C2 (code_bug evidence): a header that contains the state column but
lacks the amount column is NOT rejected with a `KeyError`: the source checks
`(amount_col and state_col) not in reader.fieldnames`, and since
`"AmountSpentUSD" and "State"` evaluates to `"State"`, only the state column
is checked.  Extraction proceeds and returns normally (all rows skipped,
their amount field being absent). -/
theorem C2_missing_amount_column_not_rejected :
    extract_csv_orders (fun _ => some [["State"], ["NY"]])
      "orders.csv" "AmountSpentUSD" "State"
      = .ok ([], []) := by
  rfl

/-- Claim C3 (code_bug evidence): on a well-formed file with skippable rows
(empty amount; non-numeric amount) followed by one valid row, extraction does
not return a NumericSequence of length 1: the skipping policy works, but the
first valid row raises `KeyError` at the `state_totals` lookup. -/
theorem C3_extract_raises_instead_of_returning :
    extract_csv_orders
      (fun _ => some [["AmountSpentUSD", "State"],
        ["", "TX"], ["abc", "CA"], ["50.5", "NY"]])
      "orders.csv" "AmountSpentUSD" "State"
      = .error (.keyError (sq ++ "NY" ++ sq)) := by
  rfl

/-- Claim C4: `transform_orders_to_stats` raises `ValueError` ("NoData")
exactly on the empty input, with its fixed message; every other input gets
an `.ok` result, never an error value. -/
theorem C4_noData_iff_empty (amounts : List ℚ) :
    ((∃ e, transform_orders_to_stats amounts = .error e) ↔ amounts = [])
    ∧ (amounts = [] → transform_orders_to_stats amounts
        = .error (.valueError "No numeric values found for analysis.")) := by
  constructor
  · constructor
    · rintro ⟨e, he⟩
      cases amounts with
      | nil => rfl
      | cons x xs => simp [transform_orders_to_stats] at he
    · rintro rfl
      exact ⟨.valueError "No numeric values found for analysis.", rfl⟩
  · rintro rfl
    rfl

/-- The running minimum is bounded by its initial value. -/
theorem foldl_min_le_init : ∀ (xs : List ℚ) (a : ℚ), xs.foldl min a ≤ a := by
  intro xs
  induction xs with
  | nil => intro a; simp
  | cons x xs ih =>
      intro a
      calc (x :: xs).foldl min a = xs.foldl min (min a x) := List.foldl_cons ..
        _ ≤ min a x := ih _
        _ ≤ a := min_le_left _ _

/-- The running minimum is one of the initial value or the list elements. -/
theorem foldl_min_mem : ∀ (xs : List ℚ) (a : ℚ), xs.foldl min a ∈ a :: xs := by
  intro xs
  induction xs with
  | nil => intro a; simp
  | cons x xs ih =>
      intro a
      have h := ih (min a x)
      rw [List.foldl_cons]
      simp only [List.mem_cons] at h ⊢
      rcases h with h | h
      · rcases min_choice a x with hm | hm
        · left; rw [h, hm]
        · right; left; rw [h, hm]
      · right; right; exact h

/-- The running minimum is a lower bound of the list elements. -/
theorem foldl_min_le_mem :
    ∀ (xs : List ℚ) (a y : ℚ), y ∈ xs → xs.foldl min a ≤ y := by
  intro xs
  induction xs with
  | nil => intro a y h; cases h
  | cons x xs ih =>
      intro a y h
      rw [List.foldl_cons]
      rcases List.mem_cons.mp h with rfl | h
      · calc xs.foldl min (min a y) ≤ min a y := foldl_min_le_init _ _
          _ ≤ y := min_le_right _ _
      · exact ih _ _ h

/-- The running maximum is bounded below by its initial value. -/
theorem le_foldl_max_init : ∀ (xs : List ℚ) (a : ℚ), a ≤ xs.foldl max a := by
  intro xs
  induction xs with
  | nil => intro a; simp
  | cons x xs ih =>
      intro a
      calc a ≤ max a x := le_max_left _ _
        _ ≤ xs.foldl max (max a x) := ih _
        _ = (x :: xs).foldl max a := (List.foldl_cons ..).symm

/-- The running maximum is one of the initial value or the list elements. -/
theorem foldl_max_mem : ∀ (xs : List ℚ) (a : ℚ), xs.foldl max a ∈ a :: xs := by
  intro xs
  induction xs with
  | nil => intro a; simp
  | cons x xs ih =>
      intro a
      have h := ih (max a x)
      rw [List.foldl_cons]
      simp only [List.mem_cons] at h ⊢
      rcases h with h | h
      · rcases max_choice a x with hm | hm
        · left; rw [h, hm]
        · right; left; rw [h, hm]
      · right; right; exact h

/-- The running maximum is an upper bound of the list elements. -/
theorem le_foldl_max_mem :
    ∀ (xs : List ℚ) (a y : ℚ), y ∈ xs → y ≤ xs.foldl max a := by
  intro xs
  induction xs with
  | nil => intro a y h; cases h
  | cons x xs ih =>
      intro a y h
      rw [List.foldl_cons]
      rcases List.mem_cons.mp h with rfl | h
      · calc y ≤ max a y := le_max_right _ _
          _ ≤ xs.foldl max (max a y) := le_foldl_max_init _ _
      · exact ih _ _ h

/-- Python `min` of a non-empty list is an element of the list. -/
theorem pyMinL_mem (x : ℚ) (xs : List ℚ) : pyMinL (x :: xs) ∈ x :: xs :=
  foldl_min_mem xs x

/-- Python `min` of a non-empty list is a lower bound. -/
theorem pyMinL_le (x : ℚ) (xs : List ℚ) : ∀ y ∈ x :: xs, pyMinL (x :: xs) ≤ y := by
  intro y hy
  rcases List.mem_cons.mp hy with rfl | hy
  · exact foldl_min_le_init xs y
  · exact foldl_min_le_mem xs x y hy

/-- Python `max` of a non-empty list is an element of the list. -/
theorem pyMaxL_mem (x : ℚ) (xs : List ℚ) : pyMaxL (x :: xs) ∈ x :: xs :=
  foldl_max_mem xs x

/-- Python `max` of a non-empty list is an upper bound. -/
theorem le_pyMaxL (x : ℚ) (xs : List ℚ) : ∀ y ∈ x :: xs, y ≤ pyMaxL (x :: xs) := by
  intro y hy
  rcases List.mem_cons.mp hy with rfl | hy
  · exact le_foldl_max_init xs y
  · exact le_foldl_max_mem xs x y hy

/-- Claim C5: on every non-empty input, `transform_orders_to_stats` returns
normally with count = the number of elements, min = the smallest element
(an element and a lower bound), max = the largest element (an element and an
upper bound), and mean = the sum divided by the count. -/
theorem C5_summarize_nonempty (amounts : List ℚ) (h : amounts ≠ []) :
    transform_orders_to_stats amounts =
      .ok { count := (amounts.length : ℚ), min := pyMinL amounts,
            max := pyMaxL amounts, mean := amounts.sum / (amounts.length : ℚ) }
    ∧ pyMinL amounts ∈ amounts ∧ (∀ y ∈ amounts, pyMinL amounts ≤ y)
    ∧ pyMaxL amounts ∈ amounts ∧ (∀ y ∈ amounts, y ≤ pyMaxL amounts) := by
  cases amounts with
  | nil => exact absurd rfl h
  | cons x xs =>
      exact ⟨by simp [transform_orders_to_stats], pyMinL_mem x xs, pyMinL_le x xs,
        pyMaxL_mem x xs, le_pyMaxL x xs⟩

/-- Witness for C5 at the spec's example input `[1.0, 2.0, 3.0, 4.0]`:
the statistics are count = 4, min = 1, max = 4, mean = 2.5. -/
theorem C5_witness :
    (([1, 2, 3, 4] : List ℚ) ≠ [])
    ∧ transform_orders_to_stats [1, 2, 3, 4]
        = .ok { count := 4, min := 1, max := 4, mean := 5 / 2 } := by
  refine ⟨by decide, ?_⟩
  rw [(C5_summarize_nonempty [1, 2, 3, 4] (by decide)).1]
  simp only [pyMinL, pyMaxL, List.foldl, Except.ok.injEq, Stats.mk.injEq]
  norm_num

/-- Claim C6: whenever the filesystem has no file at the given path,
`extract_csv_orders` fails with `FileNotFoundError` naming that path. -/
theorem C6_missing_file (fs : String → Option (List (List String)))
    (file_path amount_col state_col : String) (h : fs file_path = none) :
    extract_csv_orders fs file_path amount_col state_col =
      .error (.fileNotFoundError ("Missing input file: " ++ file_path)) := by
  unfold extract_csv_orders
  rw [h]

/-- Witness for C6 on an empty filesystem and a concrete path. -/
theorem C6_witness :
    ((fun _ : String => (none : Option (List (List String))))
        "data/raw/customers_orders.csv" = none)
    ∧ extract_csv_orders (fun _ => none) "data/raw/customers_orders.csv"
        "AmountSpentUSD" "State"
      = .error (.fileNotFoundError
          ("Missing input file: " ++ "data/raw/customers_orders.csv")) :=
  ⟨rfl, C6_missing_file _ _ _ _ rfl⟩

instance : IsTrans (String × ℚ) pairLe where
  trans a b c hab hbc := by
    rcases hab with h1 | ⟨h1, h2⟩
    · rcases hbc with h3 | ⟨h3, h4⟩
      · exact Or.inl (lt_trans h1 h3)
      · exact Or.inl (h3 ▸ h1)
    · rcases hbc with h3 | ⟨h3, h4⟩
      · exact Or.inl (h1 ▸ h3)
      · exact Or.inr ⟨h1.trans h3, h2.trans h4⟩

instance : IsTotal (String × ℚ) pairLe where
  total a b := by
    rcases lt_trichotomy a.1 b.1 with h | h | h
    · exact Or.inl (Or.inl h)
    · rcases le_total a.2 b.2 with h2 | h2
      · exact Or.inl (Or.inr ⟨h, h2⟩)
      · exact Or.inr (Or.inr ⟨h.symm, h2⟩)
    · exact Or.inr (Or.inl h)

/-- Claim C7: the report consists of the title line, the 30-dash separator,
the Count line (integer-rendered), Minimum, Maximum and Mean to two decimal
places, the section title, another separator, and one `state: $total` line
per category, with the category lines a permutation of the given totals
sorted ascending by the lexicographic pair order; concretely, for the totals
NY ↦ 30.0, CA ↦ 10.5 (and statistics count 3, min 25, max 100, mean 58.5)
the produced text is exactly the specified report, with the CA line before
the NY line. -/
theorem C7_report_format (state_totals : List (String × ℚ)) :
    (List.insertionSort pairLe state_totals).Perm state_totals
    ∧ List.Sorted pairLe (List.insertionSort pairLe state_totals)
    ∧ load_stats_report { count := 3, min := 25, max := 100, mean := 117 / 2 }
        [("NY", 30), ("CA", 21 / 2)]
      = "Customer Orders Statistics\n"
        ++ "------------------------------\n"
        ++ "Count: 3\n"
        ++ "Minimum: 25.00\n"
        ++ "Maximum: 100.00\n"
        ++ "Mean: 58.50\n"
        ++ "Total Order Amount by State\n"
        ++ "------------------------------\n"
        ++ "CA: $10.50\n"
        ++ "NY: $30.00\n" := by
  refine ⟨List.perm_insertionSort pairLe state_totals,
    List.sorted_insertionSort pairLe state_totals, ?_⟩
  with_unfolding_all rfl

/-- Claim C8: a failure of the extraction stage, or a failure of the
summarization stage after a successful extraction, makes the whole run
return that same error, and no report file is written. -/
theorem C8_failures_abort (fs : String → Option (List (List String)))
    (raw_dir processed_dir : String) (e : PyError)
    (h : extract_csv_orders fs (raw_dir ++ "/customers_orders.csv")
          "AmountSpentUSD" "State" = .error e
      ∨ ∃ amounts state_totals,
          extract_csv_orders fs (raw_dir ++ "/customers_orders.csv")
            "AmountSpentUSD" "State" = .ok (amounts, state_totals)
          ∧ transform_orders_to_stats amounts = .error e) :
    run_csv_pipeline fs raw_dir processed_dir = .error e
    ∧ writtenFiles (run_csv_pipeline fs raw_dir processed_dir) = [] := by
  have hrun : run_csv_pipeline fs raw_dir processed_dir = .error e := by
    rcases h with h | ⟨amounts, state_totals, h1, h2⟩
    · simp only [run_csv_pipeline, h]
    · simp only [run_csv_pipeline, h1, h2]
  exact ⟨hrun, by rw [hrun]; rfl⟩

/-- Witness for C8: on an empty filesystem the run fails with the
extractor's `FileNotFoundError` and writes nothing. -/
theorem C8_witness :
    (extract_csv_orders (fun _ => none) ("r" ++ "/customers_orders.csv")
        "AmountSpentUSD" "State"
      = .error (.fileNotFoundError "Missing input file: r/customers_orders.csv")
      ∨ ∃ amounts state_totals,
          extract_csv_orders (fun _ => none) ("r" ++ "/customers_orders.csv")
            "AmountSpentUSD" "State" = .ok (amounts, state_totals)
          ∧ transform_orders_to_stats amounts
            = .error (.fileNotFoundError "Missing input file: r/customers_orders.csv"))
    ∧ (run_csv_pipeline (fun _ => none) "r" "p"
        = .error (.fileNotFoundError "Missing input file: r/customers_orders.csv")
      ∧ writtenFiles (run_csv_pipeline (fun _ => none) "r" "p") = []) :=
  ⟨Or.inl rfl, C8_failures_abort _ _ _ _ (Or.inl rfl)⟩

/-- Claim C9: the run is a deterministic function of the input file's
contents — two filesystems agreeing on the fixed input path give identical
results (in particular, byte-identical report text on success). -/
theorem C9_deterministic (fs1 fs2 : String → Option (List (List String)))
    (raw_dir processed_dir : String)
    (h : fs1 (raw_dir ++ "/customers_orders.csv")
        = fs2 (raw_dir ++ "/customers_orders.csv")) :
    run_csv_pipeline fs1 raw_dir processed_dir
      = run_csv_pipeline fs2 raw_dir processed_dir := by
  have hext : extract_csv_orders fs1 (raw_dir ++ "/customers_orders.csv")
      "AmountSpentUSD" "State"
      = extract_csv_orders fs2 (raw_dir ++ "/customers_orders.csv")
        "AmountSpentUSD" "State" := by
    unfold extract_csv_orders
    rw [h]
  simp only [run_csv_pipeline, hext]

/-- Witness for C9: two different filesystems that store the same (absent)
file at the input path give the same run result. -/
theorem C9_witness :
    ((fun _ : String => (none : Option (List (List String))))
        ("r" ++ "/customers_orders.csv")
      = (fun p => if p = "r/customers_orders.csv" then none else some [[]])
        ("r" ++ "/customers_orders.csv"))
    ∧ run_csv_pipeline (fun _ => none) "r" "p"
      = run_csv_pipeline
          (fun p => if p = "r/customers_orders.csv" then none else some [[]]) "r" "p" :=
  ⟨rfl, C9_deterministic _ _ _ _ rfl⟩

/-- Claim C10: any statistics record actually returned by
`transform_orders_to_stats` on a non-empty list has count equal to the list
length and satisfies min ≤ mean ≤ max. -/
theorem C10_stats_invariant (amounts : List ℚ) (s : Stats) (h : amounts ≠ [])
    (hs : transform_orders_to_stats amounts = .ok s) :
    s.count = (amounts.length : ℚ) ∧ s.min ≤ s.mean ∧ s.mean ≤ s.max := by
  cases amounts with
  | nil => exact absurd rfl h
  | cons x xs =>
      simp only [transform_orders_to_stats, List.isEmpty_cons, if_false,
        Bool.false_eq_true, Except.ok.injEq] at hs
      subst hs
      have hlen : (0 : ℚ) < ((x :: xs).length : ℚ) := by
        exact_mod_cast List.length_pos.mpr (List.cons_ne_nil x xs)
      refine ⟨rfl, ?_, ?_⟩
      · rw [le_div_iff₀ hlen]
        have hmin := List.card_nsmul_le_sum (x :: xs) (pyMinL (x :: xs))
          (fun y hy => pyMinL_le x xs y hy)
        rw [nsmul_eq_mul] at hmin
        calc pyMinL (x :: xs) * ((x :: xs).length : ℚ)
            = ((x :: xs).length : ℚ) * pyMinL (x :: xs) := mul_comm _ _
          _ ≤ (x :: xs).sum := hmin
      · rw [div_le_iff₀ hlen]
        have hmax := List.sum_le_card_nsmul (x :: xs) (pyMaxL (x :: xs))
          (fun y hy => le_pyMaxL x xs y hy)
        rw [nsmul_eq_mul] at hmax
        calc (x :: xs).sum ≤ ((x :: xs).length : ℚ) * pyMaxL (x :: xs) := hmax
          _ = pyMaxL (x :: xs) * ((x :: xs).length : ℚ) := mul_comm _ _

/-- Witness for C10 at the concrete input `[2.0, 8.0]`. -/
theorem C10_witness :
    (([2, 8] : List ℚ) ≠ [])
    ∧ transform_orders_to_stats [2, 8]
        = .ok { count := 2, min := 2, max := 8, mean := 5 }
    ∧ (({ count := 2, min := 2, max := 8, mean := 5 } : Stats).count
          = (([2, 8] : List ℚ).length : ℚ)
        ∧ ({ count := 2, min := 2, max := 8, mean := 5 } : Stats).min
          ≤ ({ count := 2, min := 2, max := 8, mean := 5 } : Stats).mean
        ∧ ({ count := 2, min := 2, max := 8, mean := 5 } : Stats).mean
          ≤ ({ count := 2, min := 2, max := 8, mean := 5 } : Stats).max) := by
  have ht : transform_orders_to_stats [2, 8]
      = .ok { count := 2, min := 2, max := 8, mean := 5 } := by
    rw [(C5_summarize_nonempty [2, 8] (by decide)).1]
    simp only [pyMinL, pyMaxL, List.foldl, Except.ok.injEq, Stats.mk.injEq]
    norm_num
  exact ⟨by decide, ht,
    C10_stats_invariant [2, 8] { count := 2, min := 2, max := 8, mean := 5 } (by decide) ht⟩

end CsvPipeline

